import Mathlib

/-!
Shallow embedding of the multi-language code execution engine of
`backend/routes/execution_enhanced.js` (route `POST /execute` together with
its helper functions `executeJavaScriptSandbox`, `executeExternalProcess`,
`compileCode` and `runCode`).

External effects (process spawning, filesystem, the VM) are modelled by
outcome records supplied to the embedded handler: the handler consumes the
outcome of each fallible step exactly where the JavaScript code awaits it,
and the Lean definitions reproduce the JavaScript control flow and the
strings it builds.  Wall-clock quantities (durations) are not modelled;
the timeout *values* the code passes to its primitives are.
-/

namespace Studio

/-- Embedding of the constant `EXECUTION_TIMEOUT = 30000` (line 24 of the
route file).  This is the only timeout value the module ever passes to the
VM or to `spawn`. -/
def EXECUTION_TIMEOUT : Nat := 30000

/-- Embedding of one entry of `LANGUAGE_CONFIGS` (lines 27-89).  Fields keep
the JavaScript names; absent optional JavaScript fields become `none` /
`[]` / `false` defaults exactly as the code reads them
(`config.args || []`, `config.compile` falsy, ...). -/
structure LanguageConfig where
  ext : String
  runner : String
  args : List String := []
  sandboxed : Bool := false
  compile : Bool := false
  compiler : Option String := none
  compilerArgs : List String := []
  memoryLimit : Option Nat := none
deriving DecidableEq, Repr

/-- Embedding of the `LANGUAGE_CONFIGS` lookup table (lines 27-89), as the
lookup function the handler uses (`LANGUAGE_CONFIGS[language]`, membership
via `Object.keys`). -/
def LANGUAGE_CONFIGS : String → Option LanguageConfig
  | "javascript" => some { ext := ".js", runner := "node", sandboxed := true,
                           memoryLimit := some (128 * 1024 * 1024) }
  | "python" => some { ext := ".py", runner := "python", args := ["-u"] }
  | "typescript" => some { ext := ".ts", runner := "ts-node" }
  | "java" => some { ext := ".java", runner := "java", compile := true,
                     compiler := some "javac" }
  | "cpp" => some { ext := ".cpp", runner := "./program", compile := true,
                    compiler := some "g++", compilerArgs := ["-o", "program"] }
  | "c" => some { ext := ".c", runner := "./program", compile := true,
                  compiler := some "gcc", compilerArgs := ["-o", "program"] }
  | "go" => some { ext := ".go", runner := "go", args := ["run"] }
  | "rust" => some { ext := ".rs", runner := "./program", compile := true,
                     compiler := some "rustc", compilerArgs := ["-o", "program"] }
  | "php" => some { ext := ".php", runner := "php" }
  | "ruby" => some { ext := ".rb", runner := "ruby" }
  | "shell" => some { ext := ".sh", runner := "bash" }
  | _ => none

/-- Embedding of the JSON body of a `POST /execute` request as the handler
destructures it (line 103): `code`, `language`, `input` (default `""`),
`projectId`, `filename`.  The fields `timeoutMs` and `maxOutputBytes` model
the wire fields named by the specification; the handler never reads them,
which the theorems below make precise. -/
structure Request where
  code : String := ""
  language : String := ""
  input : String := ""
  filename : Option String := none
  projectId : Option String := none
  timeoutMs : Option Nat := none
  maxOutputBytes : Option Nat := none
deriving DecidableEq, Repr

/-- Embedding of the JSON object the handler sends with `res.json` /
`res.status(...).json`.  Fields that a given code path does not set keep
their defaults, matching JSON objects that simply lack the key.
`executionId`, timing and memory fields are not modelled. -/
structure Response where
  status : Nat := 200
  success : Bool := true
  output : String := ""
  error : String := ""
  errors : List String := []
  stage : Option String := none
  language : Option String := none
deriving DecidableEq, Repr

/-- Embedding of the `express-validator` chain on the route (lines 92-95 and
98-101): `body(code).isLength(min 1)` with message `Code is required`, and
`body(language).isIn(Object.keys(LANGUAGE_CONFIGS))` with message
`Unsupported language`.  `projectId` is optional and always a string here,
so it contributes no error. -/
def validationErrors (req : Request) : List String :=
  (if req.code.length ≥ 1 then [] else ["Code is required"]) ++
  (if (LANGUAGE_CONFIGS req.language).isSome then [] else ["Unsupported language"])

/-- Outcome of one `spawn`ed child process, as observed through the event
callbacks the code registers: an optional `error` event message, the exit
code delivered to `close` (`none` models a `null` code, e.g. after the
timeout kill), and the chunks delivered to the `data` callbacks of stdout
and stderr. -/
structure ProcOutcome where
  spawnErr : Option String := none
  exitCode : Option Int := some 0
  stdoutChunks : List String := []
  stderrChunks : List String := []
deriving DecidableEq, Repr

/-- Embedding of JavaScript `String.prototype.trim` as the handler uses it
on its output buffers: drop whitespace characters from both ends. -/
def jsTrim (s : String) : String :=
  String.mk (((s.data.dropWhile Char.isWhitespace).reverse.dropWhile
    Char.isWhitespace).reverse)

/-- The buffer accumulation both `compileCode` and `runCode` perform in
their `data` callbacks (`output += data.toString()`, lines 321-327 and
368-374): plain unbounded concatenation of every chunk. -/
def accumulate (chunks : List String) : String :=
  chunks.foldl (fun acc c => acc ++ c) ""

/-- The `{ success, output, error }` object `compileCode` and `runCode`
resolve their promise with. -/
structure StepResult where
  success : Bool
  output : String
  error : String
deriving DecidableEq, Repr

/-- Embedding of `compileCode` (lines 306-345): on a spawn `error` event it
resolves with `Compilation failed: <msg>`; on `close` it resolves with
`success = (code === 0)` and surfaces the accumulated stderr only when the
exit code is nonzero (`error: code !== 0 ? error : ''`). -/
def compileCode (o : ProcOutcome) : StepResult :=
  match o.spawnErr with
  | some m => { success := false, output := "", error := "Compilation failed: " ++ m }
  | none =>
      { success := o.exitCode == some 0
        output := accumulate o.stdoutChunks
        error := if o.exitCode ≠ some 0 then accumulate o.stderrChunks else "" }

/-- Embedding of `runCode` (lines 348-398): identical result shape to
`compileCode`, with spawn failures reported as `Execution failed: <msg>`. -/
def runCode (o : ProcOutcome) : StepResult :=
  match o.spawnErr with
  | some m => { success := false, output := "", error := "Execution failed: " ++ m }
  | none =>
      { success := o.exitCode == some 0
        output := accumulate o.stdoutChunks
        error := if o.exitCode ≠ some 0 then accumulate o.stderrChunks else "" }

/-- The options object both helpers hand to `spawn` (lines 313-316 and
360-363): current directory and the fixed `EXECUTION_TIMEOUT`. -/
structure SpawnOptions where
  cwd : String
  timeout : Nat
deriving DecidableEq, Repr

/-- The options `compileCode` passes to `spawn` (lines 313-316). -/
def compileSpawnOptions (tempDir : String) : SpawnOptions :=
  { cwd := tempDir, timeout := EXECUTION_TIMEOUT }

/-- The options `runCode` passes to `spawn` (lines 360-363). -/
def runSpawnOptions (tempDir : String) : SpawnOptions :=
  { cwd := tempDir, timeout := EXECUTION_TIMEOUT }

/-- The timeout budget the module applies to a given request: every spawn
and the VM receive `EXECUTION_TIMEOUT` (lines 174, 315, 362); no field of
the request is consulted when the budget is chosen. -/
def effectiveTimeoutMs (_req : Request) : Nat := EXECUTION_TIMEOUT

/-- Modelled from the spec (refinement comparison only, not code): the
budget the specification prescribes — `timeoutMs` from the request,
defaulting from the language profile when omitted. -/
def specTimeoutBudget (req : Request) (profileDefaultMs : Nat) : Nat :=
  req.timeoutMs.getD profileDefaultMs

/-- The source file name `executeExternalProcess` derives (line 236):
`filename || code<extension>`. -/
def codeFileNameOf (req : Request) (config : LanguageConfig) : String :=
  req.filename.getD ("code" ++ config.ext)

/-- The discrete `(command, argv)` pair `compileCode` hands to `spawn`
(lines 308-313): the profile's compiler, its fixed compiler arguments, and
the file name — one vector entry each, never a concatenated shell string. -/
def compileInvocation (config : LanguageConfig) (fileName : String) :
    String × List String :=
  (config.compiler.getD "", config.compilerArgs ++ [fileName])

/-- The discrete `(command, argv)` pair `runCode` hands to `spawn`
(lines 350-360): the profile's runner and fixed arguments, plus the file
name for interpreted (non-compiled) profiles. -/
def runInvocation (config : LanguageConfig) (fileName : String) :
    String × List String :=
  (config.runner, config.args ++ if config.compile then [] else [fileName])

/-- Outcomes of the external effects `executeExternalProcess` awaits:
an optional failure of `mkdir`/`writeFile` (the first throw inside its
`try`), the two process outcomes, and whether the deferred `rmdir` of the
workspace fails. -/
structure ExtEnv where
  fsError : Option String := none
  compileOutcome : ProcOutcome := {}
  runOutcome : ProcOutcome := {}
  rmdirFails : Bool := false
deriving DecidableEq, Repr

/-- Embedding of `executeExternalProcess` (lines 227-303): write the file,
optionally compile (a failed compile responds immediately with
`stage: 'compilation'` and empty output, never reaching the run step),
then run and respond with the trimmed concatenated output.  The deferred
workspace cleanup outcome (`rmdirFails`) is never consulted — its failure
is swallowed by the callback (lines 268-274). -/
def executeExternalProcess (language : String) (config : LanguageConfig)
    (env : ExtEnv) : Response :=
  match env.fsError with
  | some m =>
      { success := false, output := "", error := m, language := some language }
  | none =>
      if config.compile then
        let cr := compileCode env.compileOutcome
        if cr.success then
          let er := runCode env.runOutcome
          { success := er.success
            output := jsTrim (cr.output ++ er.output)
            error := jsTrim er.error
            stage := some "execution"
            language := some language }
        else
          { success := false, output := "", error := cr.error,
            stage := some "compilation", language := some language }
      else
        let er := runCode env.runOutcome
        { success := er.success, output := jsTrim ("" ++ er.output),
          error := jsTrim er.error, stage := some "execution",
          language := some language }

/-- The sequence of `(command, argv)` vectors `executeExternalProcess`
actually hands to `spawn`, in order: nothing when the workspace setup
throws first; the compile invocation, followed by the run invocation only
when the compile step succeeded; just the run invocation for interpreted
profiles. -/
def externalSpawns (config : LanguageConfig) (fileName : String)
    (env : ExtEnv) : List (String × List String) :=
  match env.fsError with
  | some _ => []
  | none =>
      if config.compile then
        if (compileCode env.compileOutcome).success then
          [compileInvocation config fileName, runInvocation config fileName]
        else
          [compileInvocation config fileName]
      else
        [runInvocation config fileName]

/-- The grace delay (milliseconds) of the deferred workspace cleanup
(`setTimeout(..., 5000)`, line 274). -/
def CLEANUP_DELAY_MS : Nat := 5000

/-- What can happen when the deferred cleanup finally calls
`fs.rmdir(tempDir, recursive)`: it removes the directory, finds it already
gone (the `ENOENT` rejection), or fails for another reason. -/
inductive RmOutcome where
  | removed
  | alreadyGone
  | failed (msg : String)
deriving DecidableEq, Repr

/-- The rejection message `rmdir` produces for each outcome. -/
def rmdirResult : RmOutcome → Option String
  | .removed => none
  | .alreadyGone => some "ENOENT: no such file or directory"
  | .failed m => some m

/-- Result of running the deferred cleanup callback (lines 268-274):
what escaped it, and what it logged. -/
structure CleanupRun where
  thrown : Option String
  logged : Option String
deriving DecidableEq, Repr

/-- Embedding of the deferred cleanup callback (lines 268-274): it awaits
`rmdir` inside `try`/`catch`; a rejection is converted into a logged
warning and nothing is rethrown. -/
def cleanupRun (o : RmOutcome) : CleanupRun :=
  match rmdirResult o with
  | none => { thrown := none, logged := none }
  | some m =>
      { thrown := none
        logged := some ("Failed to clean up temp directory: " ++ m) }

/-- A single apostrophe character, used to reproduce the quotes in the
sandbox denial message verbatim. -/
def quoteChar : String := String.mk [Char.ofNat 39]

/-- The modules the in-process sandbox `require` admits (line 163). -/
def allowedModules : List String := ["util", "crypto", "path"]

/-- The message of the `Error` the sandbox `require` throws for any module
off the allow-list (line 167): `Module <m> is not allowed in sandbox`,
with the module name in single quotes. -/
def moduleDeniedMsg (m : String) : String :=
  "Module " ++ quoteChar ++ m ++ quoteChar ++ " is not allowed in sandbox"

/-- The sandbox `require` (lines 161-168): returns the module when it is on
the allow-list, otherwise throws the denial error. -/
def sandboxRequire (m : String) : Except String Unit :=
  if allowedModules.contains m then .ok () else .error (moduleDeniedMsg m)

/-- JavaScript values the embedded sandbox programs produce: `undefined`,
numbers, strings, and the opaque exports object of an allowed module. -/
inductive JsValue where
  | undefinedV
  | numV (n : Int)
  | strV (s : String)
  | moduleObj (name : String)
deriving DecidableEq, Repr

/-- The string `String(v)` produces for the values above (used by the
custom `console.log` at line 138 and the result append at line 200). -/
def stringOfJs : JsValue → String
  | .undefinedV => "undefined"
  | .numV n => toString n
  | .strV s => s
  | .moduleObj _ => "[object Object]"

/-- Expressions of the micro-fragment of JavaScript interpreted here, rich
enough for the concrete programs the claims mention (numeric literals and
`+`). -/
inductive JsExpr where
  | num (n : Int)
  | add (a b : JsExpr)
deriving DecidableEq, Repr

/-- Evaluation of the numeric micro-expressions (JavaScript `+` on two
numbers is exact integer addition for these operands). -/
def evalJs : JsExpr → Int
  | .num n => n
  | .add a b => evalJs a + evalJs b

/-- Statements of the micro-fragment: `console.log(e1, ..., ek)` and
`require(m)` as an expression statement. -/
inductive JsStmt where
  | consoleLog (args : List JsExpr)
  | requireM (m : String)
deriving DecidableEq, Repr

/-- The mutable strings `output` and `errorOutput` the sandbox closes over
(lines 130-131). -/
structure SandboxState where
  output : String := ""
  errorOutput : String := ""
deriving DecidableEq, Repr

/-- One statement step.  `console.log` appends the space-joined stringified
arguments followed by the literal two-character sequence backslash-`n`
(the source appends the string literal `backslash backslash n`, line 138),
and completes with `undefined`; `require` either completes with the module
object or throws the denial error. -/
def stmtEval (st : SandboxState) : JsStmt → SandboxState × Except String JsValue
  | .consoleLog args =>
      ({ st with output :=
            st.output ++
              String.intercalate " " (args.map (fun e => stringOfJs (.numV (evalJs e)))) ++
              "\\n" },
        .ok .undefinedV)
  | .requireM m =>
      match sandboxRequire m with
      | .ok _ => (st, .ok (.moduleObj m))
      | .error e => (st, .error e)

/-- Running a statement list in order; the first thrown error aborts the
program, keeping the output accumulated so far (the closed-over buffers
survive the throw).  The completion value is the last statement's value,
as `vm.run` returns it. -/
def runStmts : List JsStmt → SandboxState → SandboxState × Except String JsValue
  | [], st => (st, .ok .undefinedV)
  | s :: rest, st =>
      match stmtEval st s with
      | (st2, .error m) => (st2, .error m)
      | (st2, .ok v) => if rest.isEmpty then (st2, .ok v) else runStmts rest st2

/-- What `vm.run(code)` produced, as `executeJavaScriptSandbox` observes
it: either a completion value together with the accumulated buffers, or a
thrown error (capability denial, syntax/runtime error, VM timeout). -/
inductive SandboxOutcome where
  | completed (result : JsValue) (output errorOutput : String)
  | threw (msg : String) (output errorOutput : String)
deriving DecidableEq, Repr

/-- A completion value that is a promise, with the result of racing it
against the timeout (lines 185-198): resolved value, or rejection/timeout
message. -/
inductive PromiseRace where
  | notPromise
  | resolved (v : JsValue)
  | rejected (msg : String)
deriving DecidableEq, Repr

/-- Embedding of the tail of `executeJavaScriptSandbox` (lines 181-223):
on a throw it responds `success: false` with the trimmed partial output
and the error message (the collected `errorOutput` is not sent on this
path); on completion it appends the stringified non-`undefined` result (or
the promise race outcome) and responds `success: true` with both buffers
trimmed. -/
def executeJavaScriptSandboxO (o : SandboxOutcome) (race : PromiseRace) : Response :=
  match o with
  | .threw msg out _ =>
      { success := false, output := jsTrim out, error := msg,
        language := some "javascript" }
  | .completed r out errOut =>
      let buffers :=
        match race with
        | .resolved v =>
            (if v ≠ .undefinedV then out ++ stringOfJs v ++ "\\n" else out, errOut)
        | .rejected m => (out, errOut ++ "Promise error: " ++ m ++ "\\n")
        | .notPromise =>
            (if r ≠ .undefinedV then out ++ stringOfJs r ++ "\\n" else out, errOut)
      { success := true, output := jsTrim buffers.1, error := jsTrim buffers.2,
        language := some "javascript" }

/-- Running one of the micro-programs through the sandbox path end to end:
interpret the statements (none of them builds a promise, so the race is
`notPromise`) and build the response. -/
def executeSandboxProgram (p : List JsStmt) : Response :=
  match runStmts p {} with
  | (st, .ok v) =>
      executeJavaScriptSandboxO (.completed v st.output st.errorOutput) .notPromise
  | (st, .error m) =>
      executeJavaScriptSandboxO (.threw m st.output st.errorOutput) .notPromise

/-- Outcomes of everything the route handler awaits: an exception thrown
anywhere in its `try` body before dispatch (`bodyThrow`), the VM outcome
with its promise race for the sandbox path, and the external-process
outcomes. -/
structure HandlerEnv where
  bodyThrow : Option String := none
  sandboxOutcome : SandboxOutcome := .completed .undefinedV "" ""
  promiseRace : PromiseRace := .notPromise
  ext : ExtEnv := {}

/-- The handler body inside `try` (lines 97-116): validate, resolve the
language configuration, and dispatch to the VM sandbox for
`javascript` (whose profile sets `sandbox: true`) or to the external
process runner otherwise.  A thrown exception is an `Except.error`. -/
def handlerBody (req : Request) (env : HandlerEnv) : Except String Response :=
  match env.bodyThrow with
  | some m => .error m
  | none =>
      let errs := validationErrors req
      if errs.isEmpty then
        match LANGUAGE_CONFIGS req.language with
        | some config =>
            if req.language == "javascript" && config.sandboxed then
              .ok (executeJavaScriptSandboxO env.sandboxOutcome env.promiseRace)
            else
              .ok (executeExternalProcess req.language config env.ext)
        | none => .ok { status := 400, success := false, errors := errs }
      else
        .ok { status := 400, success := false, errors := errs }

/-- Embedding of the whole route handler `POST /execute` (lines 92-125):
the `catch` converts any exception escaping the body into a
`500 { success: false, error: message }` response, so the handler always
responds. -/
def handleExecute (req : Request) (env : HandlerEnv) : Response :=
  match handlerBody req env with
  | .ok r => r
  | .error m => { status := 500, success := false, error := m }

/-- The `timeout` option the sandbox `VM` is constructed with (line 174):
again the fixed `EXECUTION_TIMEOUT`. -/
def vmTimeoutMs : Nat := EXECUTION_TIMEOUT

/-- How a submission can be admitted in the specification's vocabulary. -/
inductive Admission where
  | started
  | queued
  | rejected
deriving DecidableEq, Repr

/-- Execution-engine load state: how many executions are currently running
and which submissions wait in a queue.  The route keeps no such state; the
model tracks what its behaviour implies about it. -/
structure EngineState where
  running : Nat := 0
  queue : List String := []
deriving DecidableEq, Repr

/-- The admission decision of the route (lines 92-125): the handler
consults no load state and no queue — every request that passes validation
is dispatched at once, so the decision is constant. -/
def submitAdmission (_s : EngineState) : Admission := .started

/-- Effect of one accepted submission on the load state: the handler
immediately awaits the execution, so the running count grows by one and no
queue is touched. -/
def submitStep (s : EngineState) : EngineState :=
  { s with running := s.running + 1 }

/-! Helper lemmas shared by the claim theorems below. -/

/-- Folding string append over a list adds up the lengths. -/
theorem foldl_append_length (l : List String) (s : String) :
    (l.foldl (fun acc c => acc ++ c) s).length = s.length + (l.map String.length).sum := by
  induction l generalizing s with
  | nil => simp
  | cons a t ih => simp [List.foldl, ih, String.length_append, Nat.add_assoc]

/-- The accumulated capture buffer is exactly as long as the chunks it
received, with no truncation. -/
theorem accumulate_length (chunks : List String) :
    (accumulate chunks).length = (chunks.map String.length).sum := by
  simpa using foldl_append_length chunks ""

/-! Claim theorems. -/

/-- Claim C2 (counterexample): the claim says the timeout budget applied is
the one carried by the request; for a request carrying `timeoutMs = 1000`
the module nevertheless applies its fixed 30000 ms constant, which is what
the specification-side budget (1000 ms) is not. -/
theorem c2_counterexample :
    effectiveTimeoutMs { code := "while(true)\x7b\x7d", language := "javascript",
                         timeoutMs := some 1000 } = 30000 ∧
    ({ code := "while(true)\x7b\x7d", language := "javascript",
       timeoutMs := some 1000 } : Request).timeoutMs = some 1000 ∧
    specTimeoutBudget { code := "while(true)\x7b\x7d", language := "javascript",
                        timeoutMs := some 1000 } EXECUTION_TIMEOUT = 1000 ∧
    (30000 : Nat) ≠ 1000 := by
  decide

/-- Claim C2 (amended): every spawn and the VM receive the fixed
`EXECUTION_TIMEOUT = 30000` regardless of the request, and a run killed by
that timeout (a `null` exit code) resolves with `success = false` — there
is no request-carried budget and no distinct timed-out status. -/
theorem c2_fixed_timeout_applied (req : Request) (dir : String) :
    effectiveTimeoutMs req = 30000 ∧
    (runSpawnOptions dir).timeout = EXECUTION_TIMEOUT ∧
    (compileSpawnOptions dir).timeout = EXECUTION_TIMEOUT ∧
    vmTimeoutMs = EXECUTION_TIMEOUT ∧
    (runCode { spawnErr := none, exitCode := none, stdoutChunks := [],
               stderrChunks := [] }).success = false := by
  exact ⟨rfl, rfl, rfl, rfl, by decide⟩

/-- Claim C3 (counterexample): the claim says at most the configured limit
`N` (instantiated at the specification's own example `N = 3`) run
simultaneously and later submissions are queued; submitting a fourth
request while three run yields four simultaneously running executions, an
admission decision that is `started` rather than `queued`, and an empty
queue. -/
theorem c3_counterexample :
    (submitStep (submitStep (submitStep (submitStep {})))).running = 4 ∧
    ¬ (4 ≤ 3) ∧
    submitAdmission (submitStep (submitStep (submitStep {}))) = .started ∧
    (submitStep (submitStep (submitStep (submitStep {})))).queue = [] := by
  decide

/-- Claim C3 (amended): the route has no concurrency limiter — every valid
submission is admitted immediately (never queued, never rejected with
`QueueFull`), the running count grows without bound, and no queue ever
forms. -/
theorem c3_unbounded_admission (s : EngineState) :
    submitAdmission s = .started ∧
    submitAdmission s ≠ .queued ∧
    submitAdmission s ≠ .rejected ∧
    (submitStep s).running = s.running + 1 ∧
    (submitStep s).queue = s.queue := by
  exact ⟨rfl, by simp [submitAdmission], by simp [submitAdmission], rfl, rfl⟩

/-- Claim C8 (counterexample): the claim says `console.log(2+2)` yields
stdout `"4"` followed by a newline; the sandbox run succeeds but its output
is not `"4"` followed by a newline character. -/
theorem c8_counterexample :
    (executeSandboxProgram [.consoleLog [.add (.num 2) (.num 2)]]).success = true ∧
    (executeSandboxProgram [.consoleLog [.add (.num 2) (.num 2)]]).output ≠ "4\n" := by
  decide

/-- Claim C8 (amended): the request succeeds, but its stdout is the
three-character string `4` `backslash` `n`: the sandbox console appends the
literal two-character backslash-`n` sequence instead of a newline, and the
handler trims the buffer before responding, so no trailing newline can
survive. -/
theorem c8_literal_backslash_output :
    executeSandboxProgram [.consoleLog [.add (.num 2) (.num 2)]] =
      { success := true, output := "4\\n", error := "",
        language := some "javascript" } := by
  decide

/-- Claim C9: workspace destruction is deferred by a positive 5000 ms grace
delay, the cleanup callback never rethrows — in particular destroying an
already-removed workspace only logs and is otherwise a no-op — and the
response is independent of the cleanup outcome. -/
theorem c9_cleanup_deferred_and_swallowed :
    CLEANUP_DELAY_MS = 5000 ∧
    0 < CLEANUP_DELAY_MS ∧
    (∀ o : RmOutcome, (cleanupRun o).thrown = none) ∧
    (cleanupRun .alreadyGone).thrown = none ∧
    (∀ (lang : String) (c : LanguageConfig) (e : ExtEnv) (b : Bool),
        executeExternalProcess lang c { e with rmdirFails := b } =
          executeExternalProcess lang c e) := by
  refine ⟨rfl, by decide, ?_, rfl, ?_⟩
  · intro o; cases o <;> rfl
  · intro lang c e b; cases e; rfl

/-- Claim C10: with a zero exit code both step helpers report an empty
`error` no matter what was written to stderr, and the captured stderr is
surfaced exactly when the exit code is nonzero. -/
theorem c10_stderr_gated_on_exit (o : ProcOutcome) (h : o.spawnErr = none) :
    (o.exitCode = some 0 →
        (runCode o).error = "" ∧ (compileCode o).error = "") ∧
    (o.exitCode ≠ some 0 →
        (runCode o).error = accumulate o.stderrChunks ∧
        (compileCode o).error = accumulate o.stderrChunks) := by
  constructor
  · intro h0; simp [runCode, compileCode, h, h0]
  · intro h0; simp [runCode, compileCode, h, h0]

/-- Claim C10 witness: a process that exits 0 while writing `warning` to
stderr still gets an empty `error` field. -/
theorem c10_witness :
    (runCode { spawnErr := none, exitCode := some 0, stdoutChunks := [],
               stderrChunks := ["warning"] }).error = "" := by
  exact ((c10_stderr_gated_on_exit _ rfl).1 rfl).1

/-- Claim C1: the execute handler never lets an exception escape — an
exception thrown in its body becomes a `500 success=false` response
carrying the message; a validation failure becomes a `400 success=false`
response carrying the validator messages; valid requests are routed to the
sandbox or the external runner, whose every failure mode (sandbox throw,
workspace setup failure, compile failure, runtime/spawn failure) is itself
a `success=false` response carrying the corresponding diagnostic. -/
theorem c1_every_failure_is_a_result (req : Request) (env : HandlerEnv) :
    (∀ m, env.bodyThrow = some m →
        handleExecute req env = { status := 500, success := false, error := m }) ∧
    (env.bodyThrow = none → (validationErrors req).isEmpty = false →
        handleExecute req env =
          { status := 400, success := false, errors := validationErrors req }) ∧
    (∀ c, env.bodyThrow = none → (validationErrors req).isEmpty = true →
        LANGUAGE_CONFIGS req.language = some c →
        (req.language == "javascript" && c.sandboxed) = true →
        handleExecute req env =
          executeJavaScriptSandboxO env.sandboxOutcome env.promiseRace) ∧
    (∀ c, env.bodyThrow = none → (validationErrors req).isEmpty = true →
        LANGUAGE_CONFIGS req.language = some c →
        (req.language == "javascript" && c.sandboxed) = false →
        handleExecute req env = executeExternalProcess req.language c env.ext) ∧
    (∀ m out errOut race, env.sandboxOutcome = SandboxOutcome.threw m out errOut →
        executeJavaScriptSandboxO env.sandboxOutcome race =
          { success := false, output := jsTrim out, error := m,
            language := some "javascript" }) ∧
    (∀ lang c (e : ExtEnv) m, e.fsError = some m →
        executeExternalProcess lang c e =
          { success := false, output := "", error := m,
            language := some lang }) ∧
    (∀ lang c (e : ExtEnv), e.fsError = none → c.compile = true →
        (compileCode e.compileOutcome).success = false →
        executeExternalProcess lang c e =
          { success := false, output := "",
            error := (compileCode e.compileOutcome).error,
            stage := some "compilation", language := some lang }) ∧
    (∀ lang c (e : ExtEnv), e.fsError = none →
        (c.compile = true → (compileCode e.compileOutcome).success = true) →
        (runCode e.runOutcome).success = false →
        (executeExternalProcess lang c e).success = false ∧
        (executeExternalProcess lang c e).error =
          jsTrim (runCode e.runOutcome).error) := by
  refine ⟨?_, ?_, ?_, ?_, ?_, ?_, ?_, ?_⟩
  · intro m hm
    simp [handleExecute, handlerBody, hm]
  · intro h0 hv
    simp [handleExecute, handlerBody, h0, hv]
  · intro c h0 hv hcfg hsb
    simp [handleExecute, handlerBody, h0, hv, hcfg, hsb]
  · intro c h0 hv hcfg hsb
    simp [handleExecute, handlerBody, h0, hv, hcfg, hsb]
  · intro m out errOut race hs
    simp [executeJavaScriptSandboxO, hs]
  · intro lang c e m hm
    simp [executeExternalProcess, hm]
  · intro lang c e hfs hc hcs
    simp [executeExternalProcess, hfs, hc, hcs]
  · intro lang c e hfs hc hrun
    rcases hcomp : c.compile with _ | _
    · simp [executeExternalProcess, hfs, hcomp, hrun]
    · simp [executeExternalProcess, hfs, hcomp, hc hcomp, hrun]

/-- Claim C1 witness: a thrown body exception at a concrete request becomes
the concrete 500 failure response, and a concrete invalid request becomes
the concrete 400 failure response. -/
theorem c1_every_failure_is_a_result_witness :
    handleExecute { code := "x", language := "python" } { bodyThrow := some "boom" } =
      { status := 500, success := false, error := "boom" } ∧
    handleExecute { code := "", language := "cobol" } {} =
      { status := 400, success := false,
        errors := ["Code is required", "Unsupported language"] } := by
  constructor
  · exact (c1_every_failure_is_a_result { code := "x", language := "python" }
      { bodyThrow := some "boom" }).1 "boom" rfl
  · have h := (c1_every_failure_is_a_result { code := "", language := "cobol" }
      {}).2.1 rfl (by decide)
    rw [h]; decide

/-- Claim C4 (counterexample): the claim says a nonzero compile exit code
produces `stage="compile"`; a Java request whose compiler exits 1 gets a
`success=false` response whose stage is the string `compilation`, not
`compile`. -/
theorem c4_counterexample :
    (handleExecute { code := "class Main \x7b\x7d", language := "java" }
        { ext := { compileOutcome := { exitCode := some 1,
                                       stderrChunks := ["error: x"] } } }).stage =
      some "compilation" ∧
    (handleExecute { code := "class Main \x7b\x7d", language := "java" }
        { ext := { compileOutcome := { exitCode := some 1,
                                       stderrChunks := ["error: x"] } } }).stage ≠
      some "compile" ∧
    (handleExecute { code := "class Main \x7b\x7d", language := "java" }
        { ext := { compileOutcome := { exitCode := some 1,
                                       stderrChunks := ["error: x"] } } }).success =
      false := by
  decide

/-- Claim C4 (amended): for a profile with a compile step, a nonzero
compile exit code yields `success=false` with stage `compilation` (the
code's label for the compile stage), an empty output, the compiler stderr
as diagnostic, and the run command is never spawned — the spawn trace is
exactly the compile invocation. -/
theorem c4_compile_failure_skips_run (lang : String) (c : LanguageConfig)
    (e : ExtEnv) (fileName : String)
    (hfs : e.fsError = none) (hc : c.compile = true)
    (hspawn : e.compileOutcome.spawnErr = none)
    (hcode : e.compileOutcome.exitCode ≠ some 0) :
    (executeExternalProcess lang c e).success = false ∧
    (executeExternalProcess lang c e).stage = some "compilation" ∧
    (executeExternalProcess lang c e).output = "" ∧
    (executeExternalProcess lang c e).error =
      accumulate e.compileOutcome.stderrChunks ∧
    externalSpawns c fileName e = [compileInvocation c fileName] := by
  have hcs : (compileCode e.compileOutcome).success = false := by
    simp [compileCode, hspawn, hcode]
  have herr : (compileCode e.compileOutcome).error =
      accumulate e.compileOutcome.stderrChunks := by
    simp [compileCode, hspawn, hcode]
  refine ⟨?_, ?_, ?_, ?_, ?_⟩ <;>
    simp [executeExternalProcess, externalSpawns, hfs, hc, hcs, herr]

/-- Claim C4 witness: the concrete Java compile failure, with the run
invocation absent from the spawn trace. -/
theorem c4_compile_failure_skips_run_witness :
    (executeExternalProcess "java"
        { ext := ".java", runner := "java", compile := true,
          compiler := some "javac" }
        { compileOutcome := { exitCode := some 1,
                              stderrChunks := ["error: x"] } }).stage =
      some "compilation" ∧
    externalSpawns
        { ext := ".java", runner := "java", compile := true,
          compiler := some "javac" }
        "code.java"
        { compileOutcome := { exitCode := some 1,
                              stderrChunks := ["error: x"] } } =
      [("javac", ["code.java"])] := by
  have h := c4_compile_failure_skips_run "java"
    { ext := ".java", runner := "java", compile := true, compiler := some "javac" }
    { compileOutcome := { exitCode := some 1, stderrChunks := ["error: x"] } }
    "code.java" rfl rfl rfl (by decide)
  exact ⟨h.2.1, h.2.2.2.2.trans (by decide)⟩

/-- Claim C5 (counterexample): the claim says the captured buffers never
exceed the request's `maxOutputBytes`; with a request carrying
`maxOutputBytes = 4`, a run whose stdout chunks total 11 bytes is captured
in full — 11 bytes, not at most 4. -/
theorem c5_counterexample :
    ({ code := "x", language := "python",
       maxOutputBytes := some 4 } : Request).maxOutputBytes = some 4 ∧
    (runCode { spawnErr := none, exitCode := some 0,
               stdoutChunks := ["hello", " world"],
               stderrChunks := [] }).output.length = 11 ∧
    ¬ (11 ≤ 4) := by
  decide

/-- Claim C5 (amended): the capture buffers grow without bound — the run
result's output is the plain concatenation of every chunk, whose length is
the exact sum of the chunk lengths; no `maxOutputBytes` cap is applied
anywhere. -/
theorem c5_unbounded_capture (o : ProcOutcome) (h : o.spawnErr = none) :
    (runCode o).output = accumulate o.stdoutChunks ∧
    (∀ chunks : List String,
        (accumulate chunks).length = (chunks.map String.length).sum) := by
  refine ⟨?_, accumulate_length⟩
  simp [runCode, h]

/-- Claim C5 witness: the amended statement at the concrete 11-byte
outcome. -/
theorem c5_unbounded_capture_witness :
    (runCode { spawnErr := none, exitCode := some 0,
               stdoutChunks := ["hello", " world"],
               stderrChunks := [] }).output =
      accumulate ["hello", " world"] := by
  exact (c5_unbounded_capture _ rfl).1

/-- Claim C6: inside the sandbox, requiring any module off the allow-list
`util`/`crypto`/`path` throws the denial error, which the handler returns
as a response with `success=false` and the denial message — a result, not
a silent success and not a crash of the host. -/
theorem c6_capability_denied (m : String)
    (h : allowedModules.contains m = false) :
    (executeSandboxProgram [.requireM m]).success = false ∧
    (executeSandboxProgram [.requireM m]).error = moduleDeniedMsg m ∧
    (executeSandboxProgram [.requireM m]).status = 200 := by
  have hmem : m ∉ allowedModules := by simpa using h
  have hr : sandboxRequire m = .error (moduleDeniedMsg m) := by
    simp [sandboxRequire, hmem]
  refine ⟨?_, ?_, ?_⟩ <;>
    simp [executeSandboxProgram, runStmts, stmtEval, hr,
      executeJavaScriptSandboxO]

/-- Claim C6 witness: requiring the filesystem module `fs` is denied with
the exact message. -/
theorem c6_capability_denied_witness :
    (executeSandboxProgram [.requireM "fs"]).success = false ∧
    (executeSandboxProgram [.requireM "fs"]).error = moduleDeniedMsg "fs" := by
  have h := c6_capability_denied "fs" (by decide)
  exact ⟨h.1, h.2.1⟩

/-- Claim C7: for two out-of-process requests in the same language with the
same filename field — differing only in source code, stdin, or other
payload — the `(command, argv)` vectors handed to the spawn primitive are
identical, for the compile step, the run step, and the whole spawn trace;
the vector is built from the fixed profile plus the filename only, never
from source content. -/
theorem c7_invocation_independent_of_code (r1 r2 : Request)
    (c : LanguageConfig)
    (_hlang : r1.language = r2.language) (hfile : r1.filename = r2.filename)
    (_hres : LANGUAGE_CONFIGS r1.language = some c)
    (_hsb : c.sandboxed = false) :
    runInvocation c (codeFileNameOf r1 c) =
      runInvocation c (codeFileNameOf r2 c) ∧
    compileInvocation c (codeFileNameOf r1 c) =
      compileInvocation c (codeFileNameOf r2 c) ∧
    (∀ e : ExtEnv, externalSpawns c (codeFileNameOf r1 c) e =
        externalSpawns c (codeFileNameOf r2 c) e) := by
  have hname : codeFileNameOf r1 c = codeFileNameOf r2 c := by
    simp [codeFileNameOf, hfile]
  exact ⟨by rw [hname], by rw [hname], fun e => by rw [hname]⟩

/-- Claim C7 witness: two Python requests with different source and stdin
get the identical run invocation. -/
theorem c7_invocation_independent_of_code_witness :
    runInvocation { ext := ".py", runner := "python", args := ["-u"] }
        (codeFileNameOf { code := "print(1)", language := "python" }
          { ext := ".py", runner := "python", args := ["-u"] }) =
      runInvocation { ext := ".py", runner := "python", args := ["-u"] }
        (codeFileNameOf { code := "print(2)", language := "python",
                          input := "data" }
          { ext := ".py", runner := "python", args := ["-u"] }) := by
  exact (c7_invocation_independent_of_code
    { code := "print(1)", language := "python" }
    { code := "print(2)", language := "python", input := "data" }
    { ext := ".py", runner := "python", args := ["-u"] }
    rfl rfl (by decide) rfl).1

end Studio




